import Mathlib

/-!
Verification development for the SWE-Compass evaluation orchestration engine.

The Python sources are shallowly embedded: pure scoring logic becomes Lean
functions over explicit data; filesystem and container interactions become
explicit state values (file present/absent, exec completed/timed out);
Python dicts become association lists or `String → Option _` functions;
JSON numbers become rationals.  Each embedded definition names the Python
function it models.
-/

namespace SweCompass

/-! ## Python string helpers

Python `\s` whitespace (inside a single line, so `\n` is listed separately
where it matters), `str.splitlines`, `str.strip`, `str.isdigit`. -/

/-- Python regex `\s` on characters occurring inside one line. -/
def pyIsSpace (c : Char) : Bool :=
  c = ' ' || c = '\t' || c = '\r' || c = '\x0b' || c = '\x0c'

/-- Python `\s` including the newline character (used by `str.strip`). -/
def pyIsSpaceNL (c : Char) : Bool :=
  pyIsSpace c || c = '\n'

def pySplitLinesAux : List Char → List Char → List (List Char)
  | [], [] => []
  | [], acc => [acc.reverse]
  | '\n' :: rest, acc => acc.reverse :: pySplitLinesAux rest []
  | c :: rest, acc => pySplitLinesAux rest (c :: acc)

/-- Python `str.splitlines` for newline-separated logs:
no trailing empty line, `"" ↦ []`. -/
def pySplitLines (cs : List Char) : List (List Char) :=
  pySplitLinesAux cs []

/-- Python `str.strip()` on a character list. -/
def pyStripChars (cs : List Char) : List Char :=
  ((cs.dropWhile pyIsSpaceNL).reverse.dropWhile pyIsSpaceNL).reverse

/-- Python `str.strip()`. -/
def pyStrip (s : String) : String :=
  String.mk (pyStripChars s.toList)

/-- Python `str.isdigit` (ASCII digits suffice for test names). -/
def pyIsDigitStr (cs : List Char) : Bool :=
  !cs.isEmpty && cs.all Char.isDigit

/-- `p` is a literal prefix of `cs`. -/
def listStartsWith : List Char → List Char → Bool
  | [], _ => true
  | _ :: _, [] => false
  | p :: ps, c :: cs => p = c && listStartsWith ps cs

/-! ## Functional gate: `selected/eval_executor.py`

`check_pass_coverage` reads the parsed StatusMap JSON (a dict from test
name to status string) and the two expected-name lists.  A StatusMap dict
is embedded as an association list with first-match lookup. -/

/-- Canonical StatusMap: test name ↦ status string. -/
abbrev StatusMap := List (String × String)

/-- `name ∈ failed_keys` of `check_pass_coverage`: the map assigns `FAILED`. -/
def inFailedKeys (m : StatusMap) (name : String) : Bool :=
  m.lookup name == some "FAILED"

/-- `name ∈ passed_keys` of `check_pass_coverage`: the map assigns `PASSED`. -/
def inPassedKeys (m : StatusMap) (name : String) : Bool :=
  m.lookup name == some "PASSED"

/-- `check_pass_coverage` (selected track), after the three JSON loads:
`covers_pass` = no PASS_TO_PASS name is in the failed set,
`covers_fail` = every FAIL_TO_PASS name is in the passed set. -/
def checkPassCoverage (m : StatusMap) (passToPass failToPass : List String) :
    Bool × Bool :=
  (passToPass.all fun name => !inFailedKeys m name,
   failToPass.all fun name => inPassedKeys m name)

/-- `ResultSummarizer._get_standard_score` scoring step:
`score = 1 if bool(p2p) and bool(f2p) else 0`. -/
def standardScore (p2p f2p : Bool) : Nat :=
  if p2p && f2p then 1 else 0

/-! ## `main` of `selected/eval_executor.py`: result artifact and `run_state`

The state of `parsed_test_patch.json` after the test stage, as observed by
`main`: absent, present but zero bytes, present but not parseable as a JSON
dict (`json.load` raises, or the value has no `.items()`), or a JSON dict.
For an existing file `main` first calls `check_pass_coverage`, whose
`json.load` / dict comprehension raises on the zero-byte and non-dict
states, aborting the worker before `result.json` is written — hence those
states produce no artifact (`none`). -/
inductive ParsedFileState
  | absent
  | emptyFile
  | nonDict
  | dict (m : StatusMap)
  deriving DecidableEq

/-- Fields of the `result.json` artifact that scoring reads. -/
structure SelectedResult where
  run_state : Bool
  p2pResult : Bool
  f2pResult : Bool
  deriving DecidableEq

/-- Tail of `main` (selected track): gate flags default to `False` unless the
parsed file exists; `run_state` starts `True` and is cleared when the file is
missing, zero bytes, unparsable, or parses to an empty (falsy) value; the
artifact is written unless an exception aborted `main` first. -/
def selectedMain (fs : ParsedFileState) (p2p f2p : List String) :
    Option SelectedResult :=
  match fs with
  | .absent => some { run_state := false, p2pResult := false, f2pResult := false }
  | .emptyFile => none
  | .nonDict => none
  | .dict m =>
      let c := checkPassCoverage m p2p f2p
      some { run_state := !m.isEmpty, p2pResult := c.1, f2pResult := c.2 }

/-- `ResultSummarizer._get_standard_score` on the artifact: a missing
`result.json` scores 0 (with a "File not found" detail); otherwise the score
comes from the two gate flags alone — `run_state` is not consulted. -/
def selectedDownstreamScore (art : Option SelectedResult) : Nat :=
  match art with
  | none => 0
  | some r => standardScore r.p2pResult r.f2pResult

/-! ## Dispatch idempotence: `evaluators/tasks.py`

Filesystem observations each task function makes before doing work, and
whether it skips (returns 0 immediately) or proceeds to create the lock,
spawn the container and run stages. -/
structure DirState where
  workDirExists : Bool
  resultJsonExists : Bool
  lockExists : Bool
  parsedTestPatchExists : Bool
  deriving DecidableEq

inductive TaskOutcome
  | skipped (exitCode : Nat)
  | ran
  deriving DecidableEq

/-- `eval_selected`: skips with exit 0 when the working directory,
`result.json`, or `.lock` already exists; otherwise runs the evaluator. -/
def evalSelectedTask (s : DirState) : TaskOutcome :=
  if s.workDirExists then .skipped 0
  else if s.resultJsonExists then .skipped 0
  else if s.lockExists then .skipped 0
  else .ran

/-- `eval_performance_optimization`: same three guards as `eval_selected`. -/
def evalPerformanceOptimizationTask (s : DirState) : TaskOutcome :=
  if s.workDirExists then .skipped 0
  else if s.resultJsonExists then .skipped 0
  else if s.lockExists then .skipped 0
  else .ran

/-- `eval_configuration_deployment`: the only guard is the existence of
`parsed_test_patch.json`; working directory, `result.json` and `.lock` are
not checked. -/
def evalConfigurationDeploymentTask (s : DirState) : TaskOutcome :=
  if s.parsedTestPatchExists then .skipped 0 else .ran

/-- `eval_code_understanding` → `run_code_understanding`: no artifact or
lock check at all. -/
def evalCodeUnderstandingTask (_ : DirState) : TaskOutcome := .ran

/-- `eval_unit_test_generation` → `evaluate`: no artifact or lock check. -/
def evalUnitTestGenerationTask (_ : DirState) : TaskOutcome := .ran

/-! ## Performance gate: `performance_optimization/eval_executor.py`

`check_pass_coverage` of the performance track.  A timing-map JSON value is
either a number (Python int/float, embedded as a rational) or something the
`isinstance` check rejects; a timing map (Python dict) is `String → Option`
of that.  The expected-name JSON lists are turned into Python sets
(`set(json.load(f))`), embedded by deduplicating the lists. -/
inductive TVal
  | num (q : ℚ)
  | nonNumeric
  deriving DecidableEq

abbrev TimingMap := String → Option TVal

/-- The `pass_ok` loop: every PASS_TO_PASS name must be present in `t2` with
a numeric, strictly positive duration. -/
def perfPassOk (t2 : TimingMap) (passToPass : List String) : Bool :=
  passToPass.all fun name =>
    match t2 name with
    | some (TVal.num q) => decide (0 < q)
    | _ => false

/-- `name ∈ improved_keys`: present in both maps with numeric positive
durations and `t1_time * accelerate_rate > t2_time` for
`accelerate_rate = 0.8`. -/
def perfImproved (t1 t2 : TimingMap) (name : String) : Bool :=
  match t1 name, t2 name with
  | some (TVal.num a), some (TVal.num b) =>
      decide (0 < a) && decide (0 < b) && decide (a * (4 / 5) > b)
  | _, _ => false

/-- The `fail_ok` computation: with a nonempty FAIL_TO_PASS set, the
fraction of its names that are improved must meet or exceed `threshold`
(`coverage_ratio >= threshold`); an empty set trivially passes. -/
def perfFailOk (t1 t2 : TimingMap) (failToPass : List String)
    (threshold : ℚ) : Bool :=
  let fset := failToPass.dedup
  if fset.isEmpty then true
  else
    let overlap := fset.filter fun name => perfImproved t1 t2 name
    decide ((overlap.length : ℚ) / (fset.length : ℚ) ≥ threshold)

/-- `check_pass_coverage` (performance track): returns
`(pass_ok, fail_ok)`. -/
def perfCheckPassCoverage (t1 t2 : TimingMap) (p2p f2p : List String)
    (threshold : ℚ) : Bool × Bool :=
  (perfPassOk t2 p2p, perfFailOk t1 t2 f2p threshold)

/-- Concrete pre-patch timing map: `x` and `y` take 10 units. -/
def perfT1 : TimingMap := fun name =>
  if name = "x" then some (TVal.num 10)
  else if name = "y" then some (TVal.num 10) else none

/-- Concrete post-patch timing map: `x` improved (1 unit), `y` regressed
(100 units). -/
def perfT2 : TimingMap := fun name =>
  if name = "x" then some (TVal.num 1)
  else if name = "y" then some (TVal.num 100) else none

/-! ## Log parsers: `selected/parsers.py`

`parse_log_protobuf` matches `\[\s*(OK|PASSED|FAILED|SKIPPED)\s*\]\s+(\S+)`
per line (leftmost match); the status is normalised (`OK ↦ PASSED`) and only
the FIRST occurrence of a test name is kept (the `seen` set).  The regex is
embedded as a deterministic scanner: the alternation branches start with
distinct letters and `\s*`/`\s+`/`\S+` admit no useful backtracking against
the literals that follow them, so greedy scanning coincides with the regex
engine. -/

/-- Try the ordered alternation `OK|PASSED|FAILED|SKIPPED` at the head of
the stream. -/
def pbTryKeywords : List String → List Char → Option (String × List Char)
  | [], _ => none
  | kw :: kws, cs =>
      if listStartsWith kw.toList cs then some (kw, cs.drop kw.toList.length)
      else pbTryKeywords kws cs

/-- Match `\[\s*(OK|PASSED|FAILED|SKIPPED)\s*\]\s+(\S+)` anchored at the
start of the stream; returns `(raw status, test name)`. -/
def pbMatchAt (cs : List Char) : Option (String × String) :=
  match cs with
  | '[' :: rest =>
      let s1 := rest.dropWhile pyIsSpace
      match pbTryKeywords ["OK", "PASSED", "FAILED", "SKIPPED"] s1 with
      | none => none
      | some (kw, s2) =>
          match s2.dropWhile pyIsSpace with
          | ']' :: s4 =>
              match s4 with
              | c :: _ =>
                  if pyIsSpace c then
                    let name := (s4.dropWhile pyIsSpace).takeWhile
                      fun d => !pyIsSpace d
                    if name.isEmpty then none else some (kw, String.mk name)
                  else none
              | [] => none
          | _ => none
  | _ => none

/-- `pattern.search`: leftmost position where the pattern matches. -/
def pbSearch : List Char → Option (String × String)
  | [] => none
  | c :: cs =>
      match pbMatchAt (c :: cs) with
      | some r => some r
      | none => pbSearch cs

/-- One loop iteration of `parse_log_protobuf`: state is `(seen, status_map)`;
purely-numeric names are skipped, `OK` normalises to `PASSED`, and a name
already in `seen` is NOT overwritten. -/
def pbStep (acc : List String × StatusMap) (line : List Char) :
    List String × StatusMap :=
  match pbSearch line with
  | none => acc
  | some (rawStatus, name) =>
      let rawStatus := pyStrip rawStatus
      let name := pyStrip name
      if pyIsDigitStr name.toList then acc
      else
        let status := if rawStatus = "OK" then "PASSED" else rawStatus
        if acc.1.contains name then acc
        else (name :: acc.1, acc.2 ++ [(name, status)])

/-- `parse_log_protobuf`. -/
def parseLogProtobuf (log : String) : StatusMap :=
  ((pySplitLines log.toList).foldl pbStep ([], [])).2

/-! `parse_log_prisma` matches
`" test:\s+(PASS|FAIL|[✓✗])\s+([\S]+\.test\.(?:ts|js))"` per line,
normalises the indicator, and refuses to overwrite an entry that is already
`FAILED` (`if status_map.get(test_path) == 'FAILED': continue`). -/

/-- `status_normalization_map.get(indicator)` of `parse_log_prisma`. -/
def prismaNormalize (ind : String) : Option String :=
  if ind = "PASS" then some "PASSED"
  else if ind = "✓" then some "PASSED"
  else if ind = "FAIL" then some "FAILED"
  else if ind = "✗" then some "FAILED"
  else none

/-- The ordered alternation `PASS|FAIL|[✓✗]` at the head of the stream. -/
def prismaIndicator (cs : List Char) : Option (String × List Char) :=
  if listStartsWith "PASS".toList cs then some ("PASS", cs.drop 4)
  else if listStartsWith "FAIL".toList cs then some ("FAIL", cs.drop 4)
  else
    match cs with
    | '✓' :: rest => some ("✓", rest)
    | '✗' :: rest => some ("✗", rest)
    | _ => none

/-- Greedy-with-backtracking semantics of `[\S]+\.test\.(?:ts|js)` inside a
maximal non-space run: the capture splits the run as at least one character
followed by `.test.ts` or `.test.js`, at the rightmost possible split (the
regex engine shrinks the greedy `[\S]+` from the right, so the LAST viable
split seen while scanning left to right wins). -/
def prismaPathGo : List Char → List Char → Option (List Char) →
    Option (List Char)
  | _, [], best => best
  | accRev, c :: rest, best =>
      let accRev := c :: accRev
      let best :=
        if listStartsWith ".test.ts".toList rest then
          some (accRev.reverse ++ ".test.ts".toList)
        else if listStartsWith ".test.js".toList rest then
          some (accRev.reverse ++ ".test.js".toList)
        else best
      prismaPathGo accRev rest best

/-- Match `" test:\s+(PASS|FAIL|[✓✗])\s+([\S]+\.test\.(?:ts|js))"` anchored
at the start of the stream; returns `(indicator, test path)`. -/
def prismaMatchAt (cs : List Char) : Option (String × String) :=
  match cs with
  | ' ' :: r1 =>
      if listStartsWith "test:".toList r1 then
        let r2 := r1.drop 5
        match r2 with
        | c :: _ =>
            if pyIsSpace c then
              match prismaIndicator (r2.dropWhile pyIsSpace) with
              | none => none
              | some (ind, r4) =>
                  match r4 with
                  | d :: _ =>
                      if pyIsSpace d then
                        let run := (r4.dropWhile pyIsSpace).takeWhile
                          fun e => !pyIsSpace e
                        match prismaPathGo [] run none with
                        | none => none
                        | some path => some (ind, String.mk path)
                      else none
                  | [] => none
            else none
        | [] => none
      else none
  | _ => none

/-- `pattern.search` for the prisma pattern. -/
def prismaSearch : List Char → Option (String × String)
  | [] => none
  | c :: cs =>
      match prismaMatchAt (c :: cs) with
      | some r => some r
      | none => prismaSearch cs

/-- Python dict assignment `status_map[test_path] = normalized_status`:
update in place if the key exists, else append. -/
def dictInsert (m : StatusMap) (k v : String) : StatusMap :=
  if m.any (fun p => p.1 == k) then
    m.map fun p => if p.1 == k then (k, v) else p
  else m ++ [(k, v)]

/-- One loop iteration of `parse_log_prisma`: an existing `FAILED` entry is
never overwritten. -/
def prismaStep (m : StatusMap) (line : List Char) : StatusMap :=
  match prismaSearch line with
  | none => m
  | some (ind, path) =>
      match prismaNormalize ind with
      | none => m
      | some st =>
          if m.lookup path == some "FAILED" then m
          else dictInsert m path st

/-- `parse_log_prisma`. -/
def parseLogPrisma (log : String) : StatusMap :=
  (pySplitLines log.toList).foldl prismaStep []

/-! ## Coverage scoring: `unit_test_generation/unit_test.py`

HTML-coverage-report parsing (`_parse_pytest_cov_html` / `_parse_c8_coverage_html`
and the on-disk report location `_find_coverage_html`) is the opaque external
capability of the spec; it is embedded as an oracle giving, per patch-touched
file, the per-line covered/uncovered classification (`line_coverage` dict)
and per-line branch totals (`branch_coverage` dict).  Patch parsing
(`_extract_patch_lines`, built on the external `unidiff` library) is likewise
taken at its output: the per-file added/context target line numbers. -/

/-- `line_coverage` dict of one file: line number ↦ covered flag. -/
abbrev LineCov := Nat → Option Bool

/-- `branch_coverage` dict of one file: line number ↦ (total, covered). -/
abbrev BranchCov := Nat → Option (Nat × Nat)

/-- Python banker's rounding to an integer (`round` on an exact value). -/
def pyRoundHalfEven (q : ℚ) : ℤ :=
  let f := ⌊q⌋
  let r := q - f
  if r < 1 / 2 then f
  else if 1 / 2 < r then f + 1
  else if f % 2 = 0 then f else f + 1

/-- Python `round(q, 2)`. -/
def pyRound2 (q : ℚ) : ℚ :=
  (pyRoundHalfEven (q * 100) : ℚ) / 100

/-- `_analyze_line_coverage` output. -/
structure LineCovStats where
  covered_lines : Nat
  total_lines : Nat
  coverage_percentage : ℚ
  line_details : List (Nat × Bool)
  deriving DecidableEq

/-- `_analyze_line_coverage`: only lines present in the `line_coverage`
dict are counted; a line absent from the report contributes to neither the
covered count nor the total. -/
def analyzeLineCoverage (lineCov : LineCov) (linesToCheck : List Nat) :
    LineCovStats :=
  let processed := linesToCheck.filterMap fun ln =>
    (lineCov ln).map fun covered => (ln, covered)
  let covered := (processed.filter fun p => p.2).length
  let total := processed.length
  { covered_lines := covered
    total_lines := total
    coverage_percentage :=
      if 0 < total then pyRound2 ((covered : ℚ) / (total : ℚ) * 100) else 0
    line_details := processed }

/-- `_analyze_branch_coverage` output. -/
structure BranchCovStats where
  covered_branches : Nat
  total_branches : Nat
  coverage_percentage : ℚ
  branch_details : List (Nat × Nat × Nat)
  deriving DecidableEq

/-- `_analyze_branch_coverage`: sums the per-line branch totals over the
checked lines present in the `branch_coverage` dict. -/
def analyzeBranchCoverage (branchCov : BranchCov) (linesToCheck : List Nat) :
    BranchCovStats :=
  let processed := linesToCheck.filterMap fun ln =>
    (branchCov ln).map fun tc => (ln, tc)
  let total := (processed.map fun p => p.2.1).sum
  let covered := (processed.map fun p => p.2.2).sum
  { covered_branches := covered
    total_branches := total
    coverage_percentage :=
      if 0 < total then pyRound2 ((covered : ℚ) / (total : ℚ) * 100) else 0
    branch_details := processed }

/-- Insert into a sorted list (ascending). -/
def insertSorted (n : Nat) : List Nat → List Nat
  | [] => [n]
  | m :: rest => if n ≤ m then n :: m :: rest else m :: insertSorted n rest

/-- Python `sorted(set(lines))`. -/
def sortedUnique (lines : List Nat) : List Nat :=
  lines.dedup.foldr insertSorted []

/-- Per-file coverage report as produced by the opaque HTML parsers. -/
structure FileCov where
  lineCov : LineCov
  branchCov : BranchCov

/-- `_analyze_file_coverage` output (one file). -/
structure FileCovResult where
  lineCovered : Nat
  lineTotal : Nat
  linePct : ℚ
  branchCovered : Nat
  branchTotal : Nat
  branchPct : ℚ
  uncoveredLines : List Nat
  partialBranches : List (Nat × Nat × Nat)
  deriving DecidableEq

/-- `_analyze_file_coverage` after the HTML report was found and parsed. -/
def analyzeFileCoverage (fc : FileCov) (lines : List Nat) : FileCovResult :=
  let uniqueLines := sortedUnique lines
  let lineCovData := analyzeLineCoverage fc.lineCov uniqueLines
  let branchCovData := analyzeBranchCoverage fc.branchCov uniqueLines
  { lineCovered := lineCovData.covered_lines
    lineTotal := lineCovData.total_lines
    linePct := lineCovData.coverage_percentage
    branchCovered := branchCovData.covered_branches
    branchTotal := branchCovData.total_branches
    branchPct := branchCovData.coverage_percentage
    uncoveredLines :=
      (lineCovData.line_details.filter fun p => !p.2).map fun p => p.1
    partialBranches :=
      branchCovData.branch_details.filter fun p => p.2.2 < p.2.1 }

/-- `_is_supported_file`: `.py`, `.ts`, `.js`. -/
def isSupportedFile (path : String) : Bool :=
  listStartsWith ".py".toList.reverse path.toList.reverse ||
  listStartsWith ".ts".toList.reverse path.toList.reverse ||
  listStartsWith ".js".toList.reverse path.toList.reverse

/-- `file_path.startswith('docs/') or file_path.endswith('.md')`. -/
def isDocFile (path : String) : Bool :=
  listStartsWith "docs/".toList path.toList ||
  listStartsWith ".md".toList.reverse path.toList.reverse

/-- `calculate_patch_coverage` result (the fields scoring reads). -/
structure PatchCovResult where
  lineCovered : Nat
  lineTotal : Nat
  linePct : ℚ
  branchCovered : Nat
  branchTotal : Nat
  branchPct : ℚ
  errorDetail : Option String
  files : List (String × FileCovResult)

/-- `calculate_patch_coverage`, starting from the extracted per-file patch
lines (`related_lines_in_patch`) and the per-file coverage oracle (`none` =
no HTML report found, so the file is skipped).  An empty extraction yields
the explicit error detail; the overall percentage stays 0.0 unless the
accumulated total is positive (no division by zero). -/
def calculatePatchCoverage (relatedLines : List (String × List Nat))
    (coverageFor : String → Option FileCov) : PatchCovResult :=
  if relatedLines.isEmpty then
    { lineCovered := 0, lineTotal := 0, linePct := 0,
      branchCovered := 0, branchTotal := 0, branchPct := 0,
      errorDetail := some "No related files found in patch", files := [] }
  else
    let files := relatedLines.foldl
      (fun acc fp =>
        if isDocFile fp.1 then acc
        else if !isSupportedFile fp.1 then acc
        else
          match coverageFor fp.1 with
          | none => acc
          | some fc => acc ++ [(fp.1, analyzeFileCoverage fc fp.2)]) []
    let lineCovered := (files.map fun f => f.2.lineCovered).sum
    let lineTotal := (files.map fun f => f.2.lineTotal).sum
    let branchCovered := (files.map fun f => f.2.branchCovered).sum
    let branchTotal := (files.map fun f => f.2.branchTotal).sum
    { lineCovered := lineCovered
      lineTotal := lineTotal
      linePct :=
        if 0 < lineTotal then
          pyRound2 ((lineCovered : ℚ) / (lineTotal : ℚ) * 100)
        else 0
      branchCovered := branchCovered
      branchTotal := branchTotal
      branchPct :=
        if 0 < branchTotal then
          pyRound2 ((branchCovered : ℚ) / (branchTotal : ℚ) * 100)
        else 0
      errorDetail := none
      files := files }

/-- `ResultSummarizer._get_score_test_case_generation` scoring step on the
written artifact: `overall.line_coverage.percentage / 100.0`. -/
def scoreTestCaseGeneration (res : PatchCovResult) : ℚ :=
  res.linePct / 100

/-- Coverage oracle for the C6 scenario: one Python file whose report marks
lines 1–7 covered and lines 8–10 uncovered. -/
def covOracleTen : String → Option FileCov := fun path =>
  if path = "pkg/mod.py" then
    some { lineCov := fun n =>
             if 1 ≤ n ∧ n ≤ 7 then some true
             else if n ≤ 10 then some false
             else none
           branchCov := fun _ => none }
  else none

/-! ## Aggregation: `core/summary.py`

`ResultSummarizer._collect_and_score` walks the dataset and produces exactly
one flattened record per row, dispatching on the `source` tag.  Reading a
result artifact is embedded as an oracle per artifact shape: the file can be
missing, raise while being read/parsed, or yield the values the reader
extracts.  `_get_standard_score`, `_get_score_code_understanding` and
`_get_score_test_case_generation` check `path.exists()` first and report the
literal detail `{"error": "File not found", "path": ...}`; `_get_opensource`
has no existence check, so a missing file surfaces as the caught `open`
exception (`str(e)`, i.e. Python's `[Errno 2] ...` message). -/

inductive ReadOutcome (α : Type)
  | missing
  | readFailed (msg : String)
  | ok (v : α)
  deriving DecidableEq

/-- The `result_details` object attached to each record. -/
inductive ResultDetails
  | fileMissing (path : String)
  | exceptionText (msg : String)
  | stdContent (p2p f2p : Bool)
  | cuContent (avg : ℚ)
  | tcgContent (pct : ℚ)
  | osContent (resolved : Bool)
  deriving DecidableEq

/-- The `"error"` entry of the details object, when present:
`fileMissing` carries the literal `"File not found"`. -/
def ResultDetails.errorEntry : ResultDetails → Option String
  | .fileMissing _ => some "File not found"
  | .exceptionText msg => some msg
  | _ => none

/-- `str(FileNotFoundError)` raised by `open` on a missing path. -/
def pyFileNotFoundMsg (path : String) : String :=
  "[Errno 2] No such file or directory: \x27" ++ path ++ "\x27"

/-- Artifact filesystem: one reader oracle per artifact shape, keyed by the
full path string. -/
structure ArtifactFS where
  stdRead : String → ReadOutcome (Bool × Bool)
  cuRead : String → ReadOutcome ℚ
  tcgRead : String → ReadOutcome ℚ
  osRead : String → ReadOutcome Bool

/-- `self.work_dir / source / instance_id / "result.json"`. -/
def stdPath (workDir source instanceId : String) : String :=
  workDir ++ "/" ++ source ++ "/" ++ instanceId ++ "/result.json"

/-- `self.work_dir / source / instance_id / f"{instance_id}.json"`. -/
def cuPath (workDir source instanceId : String) : String :=
  workDir ++ "/" ++ source ++ "/" ++ instanceId ++ "/" ++ instanceId ++ ".json"

/-- `self.work_dir / source / instance_id / "patch_coverage_result.json"`. -/
def tcgPath (workDir source instanceId : String) : String :=
  workDir ++ "/" ++ source ++ "/" ++ instanceId ++ "/patch_coverage_result.json"

/-- `self.work_dir / source / instance_id / "report.json"`. -/
def osPath (workDir source instanceId : String) : String :=
  workDir ++ "/" ++ source ++ "/" ++ instanceId ++ "/report.json"

/-- `_get_standard_score`. -/
def getStandardScore (fs : ArtifactFS) (workDir source instanceId : String) :
    ℚ × ResultDetails :=
  let path := stdPath workDir source instanceId
  match fs.stdRead path with
  | .missing => (0, .fileMissing path)
  | .readFailed msg => (0, .exceptionText msg)
  | .ok (p2p, f2p) => (if p2p && f2p then 1 else 0, .stdContent p2p f2p)

/-- `_get_score_code_understanding`. -/
def getScoreCodeUnderstanding (fs : ArtifactFS)
    (workDir source instanceId : String) : ℚ × ResultDetails :=
  let path := cuPath workDir source instanceId
  match fs.cuRead path with
  | .missing => (0, .fileMissing path)
  | .readFailed msg => (0, .exceptionText msg)
  | .ok avg => (avg, .cuContent avg)

/-- `_get_score_test_case_generation`. -/
def getScoreTestCaseGen (fs : ArtifactFS)
    (workDir source instanceId : String) : ℚ × ResultDetails :=
  let path := tcgPath workDir source instanceId
  match fs.tcgRead path with
  | .missing => (0, .fileMissing path)
  | .readFailed msg => (0, .exceptionText msg)
  | .ok pct => (pct / 100, .tcgContent pct)

/-- `_get_opensource`: no `exists` check — a missing file is caught as the
`open` exception and reported via `str(e)`. -/
def getOpensource (fs : ArtifactFS)
    (workDir source instanceId : String) : ℚ × ResultDetails :=
  let path := osPath workDir source instanceId
  match fs.osRead path with
  | .missing => (0, .exceptionText (pyFileNotFoundMsg path))
  | .readFailed msg => (0, .exceptionText msg)
  | .ok resolved => (if resolved then 1 else 0, .osContent resolved)

/-- One dataset row as the summarizer reads it (fields already
stringified). -/
structure DataItem where
  instance_id : String
  repo_key : String
  source : String
  programming_languages : String
  programming_scenarios : String
  task_types : String
  deriving DecidableEq

/-- The opensource subset sources of `_collect_and_score`. -/
def opensourceSources : List String :=
  ["swe-bench-live", "swe-bench-multilingual", "swe-bench-verified",
   "swe-Rebench"]

/-- One flattened record of `raw_data.jsonl`. -/
structure AggregateRecord where
  instance_id : String
  repo_key : String
  source : String
  programming_languages : String
  programming_scenarios : String
  task_types : String
  score : ℚ
  result_details : ResultDetails
  deriving DecidableEq

/-- The per-row dispatch of `_collect_and_score`. -/
def scoreItem (fs : ArtifactFS) (workDir : String) (item : DataItem) :
    ℚ × ResultDetails :=
  if item.source = "test_case_generation" then
    getScoreTestCaseGen fs workDir item.source item.instance_id
  else if item.source = "code_understanding" then
    getScoreCodeUnderstanding fs workDir item.source item.instance_id
  else if opensourceSources.contains item.source then
    getOpensource fs workDir item.source item.instance_id
  else
    getStandardScore fs workDir item.source item.instance_id

/-- `_collect_and_score`: one record per dataset row, in order. -/
def collectAndScore (fs : ArtifactFS) (workDir : String)
    (dataset : List DataItem) : List AggregateRecord :=
  dataset.map fun item =>
    let sd := scoreItem fs workDir item
    { instance_id := item.instance_id
      repo_key := item.repo_key
      source := item.source
      programming_languages := item.programming_languages
      programming_scenarios := item.programming_scenarios
      task_types := item.task_types
      score := sd.1
      result_details := sd.2 }

/-- Filesystem with every artifact missing. -/
def allMissingFS : ArtifactFS :=
  { stdRead := fun _ => .missing
    cuRead := fun _ => .missing
    tcgRead := fun _ => .missing
    osRead := fun _ => .missing }

/-- A row from an opensource subset source. -/
def osItem : DataItem :=
  { instance_id := "i1", repo_key := "rk", source := "swe-bench-live",
    programming_languages := "python", programming_scenarios := "s",
    task_types := "t" }

/-- A row from a standard (selected-style) source. -/
def stdItem : DataItem :=
  { instance_id := "i2", repo_key := "rk", source := "selected",
    programming_languages := "go", programming_scenarios := "s",
    task_types := "t" }

/-! ## Stage runner timeout: `docker_exec_bash`

Both `selected` and `performance_optimization` evaluators share this
function.  The in-container execution is embedded as an outcome: the
subprocess either completes with an exit code (its output having been
streamed into the log file), or `subprocess.TimeoutExpired` is raised after
the partial output was streamed.  The function appends a stage header
before running, catches the timeout, appends the note and returns the 124
sentinel — it is total, so no exception escapes for that condition. -/

inductive ExecOutcome
  | completed (exitCode : Int) (output : String)
  | timedOut (partialOutput : String)
  deriving DecidableEq

/-- The stage delimiter header written before execution. -/
def execHeader (containerName bashScript : String) : String :=
  "\n\n[EXEC in " ++ containerName ++ "] >>> " ++ bashScript ++ "\n" ++
    String.mk (List.replicate 80 '=') ++ "\n"

/-- The note appended when the timeout expires. -/
def timeoutNote (timeout : Nat) : String :=
  "\n[ERROR] Command timed out after " ++ toString timeout ++ " seconds\n"

/-- `docker_exec_bash`: returns the exit code and the log file content after
the call (`none` when no log file was given). -/
def dockerExecBash (containerName bashScript : String)
    (logContent : Option String) (timeout : Nat) (outcome : ExecOutcome) :
    Int × Option String :=
  match logContent, outcome with
  | some log, .completed rc out =>
      (rc, some (log ++ execHeader containerName bashScript ++ out))
  | some log, .timedOut part =>
      (124, some (log ++ execHeader containerName bashScript ++ part ++
        timeoutNote timeout))
  | none, .completed rc _ => (rc, none)
  | none, .timedOut _ => (124, none)

/-! ## Code understanding: `code_understanding/code_understanding.py`

The judge LLM call is the opaque external capability; per question it either
fails in transport (`_call_llm` returns an `[ERROR] ...` string, which
`_judge_question` re-raises as `Exception("API error: ...")`), yields a
response with no extractable JSON object, raises while parsing/converting
the extracted JSON, or yields a parsed score and reasoning. -/

inductive JudgeOutcome
  | transportError (msg : String)
  | noJson
  | badJson (msg : String)
  | parsed (score : ℚ) (reasoning : String)
  deriving DecidableEq

/-- `_judge_question`: every failure path is caught and becomes
`(q_id, 0.0, "Error: ...")`; a parsed response passes through. -/
def judgeQuestion (qid : String) (outcome : JudgeOutcome) :
    String × ℚ × String :=
  match outcome with
  | .transportError msg =>
      (qid, 0, "Error: API error: [ERROR] " ++ msg ++ "\nRESULT: FAIL")
  | .noJson => (qid, 0, "Error: No valid JSON found")
  | .badJson msg => (qid, 0, "Error: " ++ msg)
  | .parsed score reasoning => (qid, score, reasoning)

/-- `run_code_understanding` scoring skeleton: an empty or whitespace-only
answer scores 0, no questions scores 0, and otherwise every question is
judged independently and the instance score is the plain average. -/
def runCodeUnderstanding (modelPatch : String)
    (questions : List (String × JudgeOutcome)) : ℚ :=
  if pyStrip modelPatch = "" then 0
  else if questions.isEmpty then 0
  else
    let results := questions.map fun q => judgeQuestion q.1 q.2
    let scores := results.map fun r => r.2.1
    if scores.isEmpty then 0 else scores.sum / (scores.length : ℚ)

end SweCompass

open SweCompass

/-- C1: for every StatusMap and every pair of expected-test-name lists, the
functional gate sets `pass_to_pass_ok` true iff no PASS_TO_PASS name maps to
FAILED, sets `fail_to_pass_ok` true iff every FAIL_TO_PASS name maps to
PASSED, and the standard score is 1 exactly when both flags hold and 0
otherwise. -/
theorem c1_functional_gate (m : StatusMap) (p2p f2p : List String) :
    ((checkPassCoverage m p2p f2p).1 = true ↔
      ∀ name ∈ p2p, m.lookup name ≠ some "FAILED") ∧
    ((checkPassCoverage m p2p f2p).2 = true ↔
      ∀ name ∈ f2p, m.lookup name = some "PASSED") ∧
    (standardScore (checkPassCoverage m p2p f2p).1
        (checkPassCoverage m p2p f2p).2 = 1 ↔
      (∀ name ∈ p2p, m.lookup name ≠ some "FAILED") ∧
      (∀ name ∈ f2p, m.lookup name = some "PASSED")) ∧
    (standardScore (checkPassCoverage m p2p f2p).1
        (checkPassCoverage m p2p f2p).2 = 0 ↔
      ¬((∀ name ∈ p2p, m.lookup name ≠ some "FAILED") ∧
        (∀ name ∈ f2p, m.lookup name = some "PASSED"))) := by
  have hp : (checkPassCoverage m p2p f2p).1 = true ↔
      ∀ name ∈ p2p, m.lookup name ≠ some "FAILED" := by
    simp [checkPassCoverage, inFailedKeys, List.all_eq_true]
  have hf : (checkPassCoverage m p2p f2p).2 = true ↔
      ∀ name ∈ f2p, m.lookup name = some "PASSED" := by
    simp [checkPassCoverage, inPassedKeys, List.all_eq_true]
  refine ⟨hp, hf, ?_, ?_⟩
  · rw [← hp, ← hf]
    cases h1 : (checkPassCoverage m p2p f2p).1 <;>
      cases h2 : (checkPassCoverage m p2p f2p).2 <;>
        simp [standardScore]
  · rw [← hp, ← hf]
    cases h1 : (checkPassCoverage m p2p f2p).1 <;>
      cases h2 : (checkPassCoverage m p2p f2p).2 <;>
        simp [standardScore]

/-- C3 counterexample: a WorkItem whose working directory, result.json and
.lock marker all exist is nevertheless re-executed by the
configuration-deployment task (and by the code-understanding task), because
those tracks do not check these markers — re-dispatch is not a no-op for
every track. -/
theorem c3_counterexample :
    evalConfigurationDeploymentTask
        { workDirExists := true, resultJsonExists := true,
          lockExists := true, parsedTestPatchExists := false } =
      TaskOutcome.ran ∧
    evalCodeUnderstandingTask
        { workDirExists := true, resultJsonExists := true,
          lockExists := true, parsedTestPatchExists := false } =
      TaskOutcome.ran := by
  exact ⟨rfl, rfl⟩

/-- C3 (amended): the selected and performance-optimization tasks skip with
exit code 0 — executing no stage and touching no artifact — exactly when the
working directory, result.json, or .lock already exists; the
configuration-deployment task skips exactly when parsed_test_patch.json
exists; the code-understanding and test-case-generation tasks never skip. -/
theorem c3_idempotence_amended (s : DirState) :
    ((evalSelectedTask s = .skipped 0) ↔
      (s.workDirExists = true ∨ s.resultJsonExists = true ∨ s.lockExists = true)) ∧
    ((evalPerformanceOptimizationTask s = .skipped 0) ↔
      (s.workDirExists = true ∨ s.resultJsonExists = true ∨ s.lockExists = true)) ∧
    ((evalConfigurationDeploymentTask s = .skipped 0) ↔
      s.parsedTestPatchExists = true) ∧
    evalCodeUnderstandingTask s = .ran ∧
    evalUnitTestGenerationTask s = .ran := by
  obtain ⟨a, b, c, d⟩ := s
  revert a b c d
  decide

/-- C4 counterexample: an empty parsed StatusMap (the file holds the empty
JSON object) with empty PASS_TO_PASS and FAIL_TO_PASS lists yields an
artifact with run_state = false whose downstream score is 1, not 0: the
summarizer scores from the gate flags alone and never reads run_state. -/
theorem c4_counterexample :
    (selectedMain (ParsedFileState.dict []) [] []).map
        (fun r => r.run_state) = some false ∧
    selectedDownstreamScore (selectedMain (ParsedFileState.dict []) [] []) = 1 := by
  exact ⟨rfl, rfl⟩

/-- C4 (amended): an artifact is produced only when the parsed StatusMap
file is absent or parses as a JSON dict (a zero-byte or unparsable file
aborts the worker inside check_pass_coverage before result.json is
written); in the artifact, run_state = false exactly when the file was
absent or the dict was empty; run_state stays recorded and distinguishable,
but the downstream score ignores it — with run_state = false the score is 0
whenever FAIL_TO_PASS is nonempty, while an empty FAIL_TO_PASS can still
score 1. -/
theorem c4_run_state_amended (fs : ParsedFileState) (p2p f2p : List String) :
    ((selectedMain fs p2p f2p = none) ↔
      (fs = ParsedFileState.emptyFile ∨ fs = ParsedFileState.nonDict)) ∧
    (∀ r, selectedMain fs p2p f2p = some r →
      ((r.run_state = false) ↔
        (fs = ParsedFileState.absent ∨ fs = ParsedFileState.dict [])) ∧
      (r.run_state = false → f2p ≠ [] →
        selectedDownstreamScore (some r) = 0)) := by
  cases fs with
  | absent =>
      refine ⟨by simp [selectedMain], ?_⟩
      intro r hr
      simp only [selectedMain, Option.some.injEq] at hr
      subst hr
      refine ⟨by simp, ?_⟩
      intro _ _
      rfl
  | emptyFile => exact ⟨by simp [selectedMain], by simp [selectedMain]⟩
  | nonDict => exact ⟨by simp [selectedMain], by simp [selectedMain]⟩
  | dict m =>
      refine ⟨by simp [selectedMain], ?_⟩
      intro r hr
      simp only [selectedMain, Option.some.injEq] at hr
      subst hr
      have hiff : (!m.isEmpty) = false ↔ m = [] := by
        cases m <;> simp
      constructor
      · constructor
        · intro h
          exact Or.inr (by simp [hiff.mp h])
        · rintro (h | h)
          · exact absurd h (by simp)
          · have hm : m = [] := by
              injection h
            simp [hm]
      · intro hrs hf2p
        have hm : m = [] := hiff.mp hrs
        subst hm
        obtain ⟨n, rest, hnr⟩ := List.exists_cons_of_ne_nil hf2p
        subst hnr
        simp [selectedDownstreamScore, standardScore, checkPassCoverage,
          inPassedKeys, List.lookup]

/-- C4 witness: instantiates the amended theorem — a zero-byte file yields
no artifact, and for the empty-dict state with FAIL_TO_PASS = ["a"] the
artifact has run_state = false and downstream score 0. -/
theorem c4_run_state_amended_witness :
    selectedMain ParsedFileState.emptyFile [] [] = none ∧
    ∃ r, selectedMain (ParsedFileState.dict []) [] ["a"] = some r ∧
      r.run_state = false ∧ selectedDownstreamScore (some r) = 0 := by
  refine ⟨(c4_run_state_amended ParsedFileState.emptyFile [] []).1.mpr
      (Or.inl rfl), ?_⟩
  refine ⟨{ run_state := false, p2pResult := true, f2pResult := false },
    rfl, ?_, ?_⟩
  · exact (((c4_run_state_amended (ParsedFileState.dict []) [] ["a"]).2 _
      rfl).1).mpr (Or.inr rfl)
  · exact ((c4_run_state_amended (ParsedFileState.dict []) [] ["a"]).2 _
      rfl).2 rfl (by simp)

/-- C5 counterexample: with threshold 0.5 and FAIL_TO_PASS = ["x", "y"],
where exactly `x` is improved (both maps hold positive numeric durations and
`10 * 0.8 > 1` but not `10 * 0.8 > 100`), the coverage ratio is exactly 0.5
and `fail_to_pass_ok` is true — the code compares with `>=`, so the boundary
ratio passes rather than failing as the claim states. -/
theorem c5_counterexample :
    perfImproved perfT1 perfT2 "x" = true ∧
    perfImproved perfT1 perfT2 "y" = false ∧
    (perfCheckPassCoverage perfT1 perfT2 [] ["x", "y"] (1 / 2)).2 = true := by
  refine ⟨?_, ?_, ?_⟩
  · norm_num [perfImproved, perfT1, perfT2]
  · norm_num +decide [perfImproved, perfT1, perfT2]
  · norm_num +decide [perfCheckPassCoverage, perfFailOk, perfImproved,
      perfT1, perfT2, List.dedup, List.filter]

/-- C5 (amended): in the performance gate with coverage threshold 0.5, a
FAIL_TO_PASS set of two names with exactly one improved (ratio exactly 0.5)
meets the `>=` threshold, so `fail_to_pass_ok` is true; with no improved
name (ratio 0) it is false; and with an empty FAIL_TO_PASS set it is
trivially true. -/
theorem c5_perf_boundary_amended :
    (perfCheckPassCoverage perfT1 perfT2 [] ["x", "y"] (1 / 2)).2 = true ∧
    (perfCheckPassCoverage perfT1 perfT1 [] ["x", "y"] (1 / 2)).2 = false ∧
    (perfCheckPassCoverage perfT1 perfT2 [] [] (1 / 2)).2 = true := by
  refine ⟨?_, ?_, ?_⟩
  · norm_num +decide [perfCheckPassCoverage, perfFailOk, perfImproved,
      perfT1, perfT2, List.dedup, List.filter]
  · norm_num +decide [perfCheckPassCoverage, perfFailOk, perfImproved,
      perfT1, List.dedup, List.filter]
  · norm_num [perfCheckPassCoverage, perfFailOk]

namespace SweCompass

/-- Looking up a key other than the inserted one is unchanged by the
in-place-update branch of `dictInsert`. -/
theorem lookup_map_update_ne (m : StatusMap) (k v path : String)
    (hne : path ≠ k) :
    (m.map fun p => if p.1 = k then (k, v) else p).lookup path =
      m.lookup path := by
  induction m with
  | nil => rfl
  | cons hd tl ih =>
      obtain ⟨a, b⟩ := hd
      by_cases hak : a = k
      · subst hak
        have hpa : (path == a) = false := beq_eq_false_iff_ne.mpr hne
        simp [List.lookup_cons, hpa, ih]
      · simp only [List.map_cons, if_neg hak, List.lookup_cons]
        cases hpa : (path == a) <;> simp [ih]

/-- The in-place-update branch of `dictInsert` rewrites the looked-up value
of a present key. -/
theorem lookup_map_update_eq (m : StatusMap) (k v : String)
    (hmem : m.any (fun p => p.1 == k) = true) :
    (m.map fun p => if p.1 = k then (k, v) else p).lookup k = some v := by
  induction m with
  | nil => simp at hmem
  | cons hd tl ih =>
      obtain ⟨a, b⟩ := hd
      by_cases hak : a = k
      · subst hak
        simp [List.lookup_cons]
      · have htl : tl.any (fun p => p.1 == k) = true := by
          simpa [List.any_cons, hak] using hmem
        have hka : (k == a) = false :=
          beq_eq_false_iff_ne.mpr fun h => hak h.symm
        simp only [List.map_cons, if_neg hak, List.lookup_cons, hka, ih htl]

/-- A key absent from every pair cannot be looked up. -/
theorem lookup_eq_none_of_not_any (m : StatusMap) (k : String)
    (hany : m.any (fun p => p.1 == k) = false) :
    m.lookup k = none := by
  induction m with
  | nil => rfl
  | cons hd tl ih =>
      obtain ⟨a, b⟩ := hd
      simp only [List.any_cons, Bool.or_eq_false_iff] at hany
      have hka : (k == a) = false := by
        rw [beq_eq_false_iff_ne] at hany ⊢
        exact fun h => hany.1 h.symm
      simp only [List.lookup_cons, hka, ih hany.2]

/-- Lookup after appending a single pair. -/
theorem lookup_append_one (m : StatusMap) (k v path : String) :
    (m ++ [(k, v)]).lookup path =
      match m.lookup path with
      | some w => some w
      | none => if path == k then some v else none := by
  induction m with
  | nil =>
      cases h : (path == k) <;> simp [List.lookup_cons, h]
  | cons hd tl ih =>
      obtain ⟨a, b⟩ := hd
      cases hpa : (path == a) <;>
        simp only [List.cons_append, List.lookup_cons, hpa, ih]

/-- `dictInsert` behaves as dict assignment with respect to lookup. -/
theorem lookup_dictInsert (m : StatusMap) (k v path : String) :
    (dictInsert m k v).lookup path =
      if path = k then some v else m.lookup path := by
  unfold dictInsert
  cases hany : m.any (fun p => p.1 == k) with
  | true =>
      simp only [hany, if_pos, beq_iff_eq]
      by_cases h : path = k
      · subst h
        simp [lookup_map_update_eq m path v hany]
      · simp [h, lookup_map_update_ne m k v path h]
  | false =>
      simp only [hany, Bool.false_eq_true, if_false]
      rw [lookup_append_one]
      by_cases h : path = k
      · subst h
        rw [lookup_eq_none_of_not_any m path hany]
        simp
      · have hpk : (path == k) = false := beq_eq_false_iff_ne.mpr h
        simp only [h, if_false, hpk]
        cases m.lookup path <;> simp

/-- A `FAILED` entry survives one `parse_log_prisma` loop iteration. -/
theorem prismaStep_preserves_failed (m : StatusMap) (line : List Char)
    (path : String) (h : m.lookup path = some "FAILED") :
    (prismaStep m line).lookup path = some "FAILED" := by
  cases hs : prismaSearch line with
  | none => simp [prismaStep, hs, h]
  | some r =>
      obtain ⟨ind, p2⟩ := r
      cases hn : prismaNormalize ind with
      | none => simp [prismaStep, hs, hn, h]
      | some st =>
          by_cases hcond : (m.lookup p2 == some "FAILED") = true
          · simp [prismaStep, hs, hn, hcond, h]
          · have hne : path ≠ p2 := by
              intro he
              subst he
              exact hcond (by simp [h])
            simp [prismaStep, hs, hn, hcond, lookup_dictInsert, hne, h]

/-- A line matched with a `FAILED`-normalising indicator forces the entry to
`FAILED` after that iteration, whatever was stored before. -/
theorem prismaStep_sets_failed (m : StatusMap) (line : List Char)
    (ind path : String)
    (hs : prismaSearch line = some (ind, path))
    (hn : prismaNormalize ind = some "FAILED") :
    (prismaStep m line).lookup path = some "FAILED" := by
  by_cases hcond : (m.lookup path == some "FAILED") = true
  · simp only [prismaStep, hs, hn, hcond, if_pos]
    exact beq_iff_eq.mp hcond
  · simp [prismaStep, hs, hn, hcond, lookup_dictInsert]

/-- Fold invariant: once some processed line forces `FAILED` for `path` (or
it already held), the final map holds `FAILED`. -/
theorem prisma_foldl_failed (lines : List (List Char)) (m : StatusMap)
    (path : String) :
    (m.lookup path = some "FAILED" ∨
      ∃ line ∈ lines, ∃ ind, prismaSearch line = some (ind, path) ∧
        prismaNormalize ind = some "FAILED") →
    (lines.foldl prismaStep m).lookup path = some "FAILED" := by
  induction lines generalizing m with
  | nil =>
      rintro (h | ⟨l, hl, _⟩)
      · exact h
      · cases hl
  | cons hd tl ih =>
      rintro (h | ⟨l, hl, ind, hs, hn⟩)
      · exact ih _ (Or.inl (prismaStep_preserves_failed m hd path h))
      · rcases List.mem_cons.mp hl with rfl | hmem
        · exact ih _ (Or.inl (prismaStep_sets_failed m l ind path hs hn))
        · exact ih _ (Or.inr ⟨l, hmem, ind, hs, hn⟩)

end SweCompass

/-- C2 counterexample: `parse_log_protobuf` keeps the FIRST occurrence of a
test name, so a log whose first line reports `Suite.t` as OK and whose later
line reports it as FAILED ends with `Suite.t ↦ PASSED` — the claim's
failure-sticks property does not hold for every registered parser. -/
theorem c2_counterexample :
    (parseLogProtobuf "[ OK ] Suite.t\n[ FAILED ] Suite.t").lookup "Suite.t"
        = some "PASSED" ∧
    (parseLogProtobuf "[ OK ] Suite.t\n[ FAILED ] Suite.t").lookup "Suite.t"
        ≠ some "FAILED" := by
  exact ⟨by decide, by decide⟩

/-- C2 (amended): failure-sticks is parser-specific, not universal.
`parse_log_prisma` implements it: whenever any line of the log matches the
prisma pattern with a FAIL-normalising indicator for a path, the final
StatusMap maps that path to FAILED, regardless of PASS lines before or
after.  (`parse_log_protobuf`, by contrast, keeps the first occurrence, and
last-writer-wins parsers such as `parse_log_systemd` keep the last.) -/
theorem c2_failure_sticks_amended (log : String) (path : String) :
    (∃ line ∈ pySplitLines log.toList, ∃ ind,
      prismaSearch line = some (ind, path) ∧
        prismaNormalize ind = some "FAILED") →
    (parseLogPrisma log).lookup path = some "FAILED" := by
  intro h
  exact prisma_foldl_failed _ _ _ (Or.inr h)

/-- C2 witness: a prisma log that reports `a.test.ts` as PASS and then as
FAIL ends with the entry FAILED. -/
theorem c2_failure_sticks_amended_witness :
    (parseLogPrisma
        "p test: PASS a.test.ts\nf test: FAIL a.test.ts").lookup "a.test.ts"
      = some "FAILED" := by
  apply c2_failure_sticks_amended
  exact ⟨("f test: FAIL a.test.ts").toList, by decide, "FAIL",
    by decide, by decide⟩

namespace SweCompass

/-- For a nonempty extraction, the overall line percentage is determined by
the accumulated covered/total counts, with the zero-total guard. -/
theorem patchCov_linePct_of_nonempty (rl : List (String × List Nat))
    (cov : String → Option FileCov) (h : rl.isEmpty = false) :
    (calculatePatchCoverage rl cov).linePct =
      (if 0 < (calculatePatchCoverage rl cov).lineTotal then
        pyRound2 (((calculatePatchCoverage rl cov).lineCovered : ℚ) /
          ((calculatePatchCoverage rl cov).lineTotal : ℚ) * 100)
      else 0) := by
  unfold calculatePatchCoverage
  simp only [h, Bool.false_eq_true, if_false]

end SweCompass

/-- C6 counterexample: a patch touching only `README.md` has zero trackable
lines, yet the coverage result carries NO error detail — the explicit error
is set only when the patch extraction finds no files at all; the score is
still 0.0 with no division error. -/
theorem c6_counterexample :
    (calculatePatchCoverage [("README.md", [1, 2, 3])]
        (fun _ => none)).errorDetail = none ∧
    (calculatePatchCoverage [("README.md", [1, 2, 3])]
        (fun _ => none)).lineTotal = 0 ∧
    scoreTestCaseGeneration
        (calculatePatchCoverage [("README.md", [1, 2, 3])] (fun _ => none))
      = 0 := by
  refine ⟨by decide, by decide, ?_⟩
  have hp := patchCov_linePct_of_nonempty [("README.md", [1, 2, 3])]
    (fun _ => none) (by decide)
  have ht : (calculatePatchCoverage [("README.md", [1, 2, 3])]
      (fun _ => none)).lineTotal = 0 := by decide
  rw [ht] at hp
  rw [scoreTestCaseGeneration, hp]
  norm_num

/-- C6 (amended): a single supported file with 10 trackable lines of which 7
are covered scores exactly 0.7; a patch whose extraction finds no files at
all yields the explicit "No related files found in patch" error detail and
score 0.0; and whenever the accumulated trackable total is zero the
percentage guard keeps the score at 0.0 with no division error — but a
patch whose files are all unsupported or documentation has zero trackable
lines and scores 0.0 WITHOUT an error detail. -/
theorem c6_coverage_amended :
    scoreTestCaseGeneration
        (calculatePatchCoverage [("pkg/mod.py", List.range' 1 10)]
          covOracleTen) = 7 / 10 ∧
    (∀ cov, (calculatePatchCoverage [] cov).errorDetail =
        some "No related files found in patch" ∧
      scoreTestCaseGeneration (calculatePatchCoverage [] cov) = 0) ∧
    (∀ rl cov, (calculatePatchCoverage rl cov).lineTotal = 0 →
      scoreTestCaseGeneration (calculatePatchCoverage rl cov) = 0) := by
  refine ⟨?_, ?_, ?_⟩
  · have ht : (calculatePatchCoverage [("pkg/mod.py", List.range' 1 10)]
        covOracleTen).lineTotal = 10 := by decide
    have hc : (calculatePatchCoverage [("pkg/mod.py", List.range' 1 10)]
        covOracleTen).lineCovered = 7 := by decide
    have hp := patchCov_linePct_of_nonempty
      [("pkg/mod.py", List.range' 1 10)] covOracleTen (by decide)
    rw [ht, hc] at hp
    rw [scoreTestCaseGeneration, hp]
    norm_num [pyRound2, pyRoundHalfEven]
  · intro cov
    refine ⟨by simp [calculatePatchCoverage], ?_⟩
    simp [calculatePatchCoverage, scoreTestCaseGeneration]
  · intro rl cov htotal
    by_cases he : rl.isEmpty = true
    · simp [calculatePatchCoverage, he, scoreTestCaseGeneration]
    · have he' : rl.isEmpty = false := by simpa using he
      have hp := patchCov_linePct_of_nonempty rl cov he'
      rw [htotal] at hp
      rw [scoreTestCaseGeneration, hp]
      norm_num

/-- C6 witness: instantiates the amended theorem's guarded part at a
docs-only patch with an all-absent coverage oracle. -/
theorem c6_coverage_amended_witness :
    scoreTestCaseGeneration
        (calculatePatchCoverage [("README.md", [1])] (fun _ => none)) = 0 := by
  exact c6_coverage_amended.2.2 [("README.md", [1])] (fun _ => none) (by decide)

/-- C10: in `_analyze_line_coverage` only patch lines present in the
report's per-line classification are counted: the total is the number of
checked lines the report classifies, the covered count is the number of
those classified `true`, and a line absent from the report leaves the whole
analysis unchanged — it is dropped from the fraction, not counted as
uncovered. -/
theorem c10_untracked_lines_dropped (lineCov : LineCov) (lines : List Nat) :
    (analyzeLineCoverage lineCov lines).total_lines =
      (lines.filter fun ln => (lineCov ln).isSome).length ∧
    (analyzeLineCoverage lineCov lines).covered_lines =
      (lines.filter fun ln => lineCov ln == some true).length ∧
    (∀ ln, lineCov ln = none →
      analyzeLineCoverage lineCov (lines ++ [ln]) =
        analyzeLineCoverage lineCov lines) := by
  refine ⟨?_, ?_, ?_⟩
  · induction lines with
    | nil => rfl
    | cons hd tl ih =>
        cases hhd : lineCov hd <;>
          simp [analyzeLineCoverage, List.filterMap_cons, hhd,
            List.filter_cons] <;>
          simpa [analyzeLineCoverage] using ih
  · induction lines with
    | nil => rfl
    | cons hd tl ih =>
        cases hhd : lineCov hd with
        | none =>
            simp only [analyzeLineCoverage, List.filterMap_cons, hhd,
              List.filter_cons] at ih ⊢
            simpa [hhd] using ih
        | some b =>
            cases b <;>
              simp only [analyzeLineCoverage, List.filterMap_cons, hhd,
                List.filter_cons] at ih ⊢ <;>
              simp [hhd, List.filter_cons] <;>
              simpa using ih
  · intro ln hln
    have hproc : (lines ++ [ln]).filterMap
        (fun l => (lineCov l).map fun covered => (l, covered)) =
        lines.filterMap (fun l => (lineCov l).map fun covered => (l, covered)) := by
      rw [List.filterMap_append]
      simp [hln]
    simp only [analyzeLineCoverage, hproc]

/-- C10 witness: a line absent from the report (line 2) contributes to
neither count. -/
theorem c10_untracked_lines_dropped_witness :
    analyzeLineCoverage
        (fun n => if n = 1 then some true else none) ([1] ++ [2]) =
      analyzeLineCoverage (fun n => if n = 1 then some true else none) [1] := by
  exact (c10_untracked_lines_dropped
    (fun n => if n = 1 then some true else none) [1]).2.2 2 (by decide)

/-- C7 counterexample: a dataset row from an opensource subset source whose
report.json is missing still yields exactly one record with score 0 and an
error entry — but the entry is the caught exception's message, not the
literal "File not found" that the claim asserts for every track. -/
theorem c7_counterexample :
    (collectAndScore allMissingFS "wd" [osItem]).length = 1 ∧
    ((collectAndScore allMissingFS "wd" [osItem]).map fun r => r.score)
      = [0] ∧
    ((collectAndScore allMissingFS "wd" [osItem]).map
        fun r => r.result_details.errorEntry)
      = [some (pyFileNotFoundMsg (osPath "wd" "swe-bench-live" "i1"))] ∧
    pyFileNotFoundMsg (osPath "wd" "swe-bench-live" "i1") ≠ "File not found" := by
  refine ⟨rfl, rfl, rfl, by decide⟩

/-- C7 (amended): every dataset row yields exactly one record, in order;
a missing artifact always scores 0 with a populated error entry, where the
standard, code-understanding and test-case-generation readers report the
literal "File not found" (with the path), while the opensource subset reader
has no existence check and reports the caught exception's message instead. -/
theorem c7_aggregation_amended (fs : ArtifactFS) (workDir : String)
    (dataset : List DataItem) :
    (collectAndScore fs workDir dataset).length = dataset.length ∧
    ((collectAndScore fs workDir dataset).map fun r => r.instance_id) =
      (dataset.map fun item => item.instance_id) ∧
    (∀ item : DataItem,
      (item.source ≠ "test_case_generation" →
        item.source ≠ "code_understanding" →
        opensourceSources.contains item.source = false →
        fs.stdRead (stdPath workDir item.source item.instance_id) =
          .missing →
        scoreItem fs workDir item =
          (0, .fileMissing (stdPath workDir item.source item.instance_id))) ∧
      (item.source = "test_case_generation" →
        fs.tcgRead (tcgPath workDir item.source item.instance_id) =
          .missing →
        scoreItem fs workDir item =
          (0, .fileMissing (tcgPath workDir item.source item.instance_id))) ∧
      (item.source = "code_understanding" →
        fs.cuRead (cuPath workDir item.source item.instance_id) =
          .missing →
        scoreItem fs workDir item =
          (0, .fileMissing (cuPath workDir item.source item.instance_id))) ∧
      (opensourceSources.contains item.source = true →
        fs.osRead (osPath workDir item.source item.instance_id) =
          .missing →
        scoreItem fs workDir item =
          (0, .exceptionText (pyFileNotFoundMsg
            (osPath workDir item.source item.instance_id))))) := by
  refine ⟨by simp [collectAndScore], ?_, ?_⟩
  · simp [collectAndScore, List.map_map, Function.comp]
  · intro item
    refine ⟨?_, ?_, ?_, ?_⟩
    · intro h1 h2 h3 hread
      unfold scoreItem
      rw [if_neg h1, if_neg h2, if_neg (by simpa using h3)]
      simp only [getStandardScore, hread]
    · intro h1 hread
      rw [h1] at hread
      unfold scoreItem
      rw [if_pos h1]
      rw [h1]
      simp only [getScoreTestCaseGen, hread]
    · intro h1 hread
      rw [h1] at hread
      unfold scoreItem
      rw [if_neg (by rw [h1]; decide), if_pos h1]
      rw [h1]
      simp only [getScoreCodeUnderstanding, hread]
    · intro hcont hread
      have hmem : item.source ∈ opensourceSources := by
        simpa using hcont
      have h1 : item.source ≠ "test_case_generation" := by
        intro he
        rw [he] at hmem
        simp [opensourceSources] at hmem
      have h2 : item.source ≠ "code_understanding" := by
        intro he
        rw [he] at hmem
        simp [opensourceSources] at hmem
      unfold scoreItem
      rw [if_neg h1, if_neg h2, if_pos hcont]
      simp only [getOpensource, hread]

/-- C7 witness: with every artifact missing, a standard row reports the
literal "File not found" detail and an opensource row the exception text,
both with score 0. -/
theorem c7_aggregation_amended_witness :
    scoreItem allMissingFS "wd" stdItem =
      (0, .fileMissing (stdPath "wd" "selected" "i2")) ∧
    scoreItem allMissingFS "wd" osItem =
      (0, .exceptionText (pyFileNotFoundMsg
        (osPath "wd" "swe-bench-live" "i1"))) := by
  constructor
  · exact (((c7_aggregation_amended allMissingFS "wd" []).2.2 stdItem).1)
      (by decide) (by decide) (by decide) rfl
  · exact (((c7_aggregation_amended allMissingFS "wd" []).2.2 osItem).2.2.2)
      (by decide) rfl

/-- C8: when an in-container stage execution exceeds the timeout, the stage
runner records exit code 124, preserves the log content streamed so far (the
prior log, the stage header, and the partial output remain a prefix) and
appends the timeout note; the condition is handled, not propagated. -/
theorem c8_stage_timeout (container script log part : String) (tmo : Nat) :
    (dockerExecBash container script (some log) tmo
        (ExecOutcome.timedOut part)).1 = 124 ∧
    (dockerExecBash container script (some log) tmo
        (ExecOutcome.timedOut part)).2 =
      some (log ++ execHeader container script ++ part ++ timeoutNote tmo) := by
  exact ⟨rfl, rfl⟩

/-- C9: in the code-understanding track, an empty or whitespace-only answer
scores 0 and no questions scores 0; otherwise the instance score is the
average over ALL questions, and a question whose judge call failed (in
transport, or with no extractable JSON) contributes score 0.0 with the error
inside its reasoning text, without affecting the other questions. -/
theorem c9_judge_degradation (modelPatch : String)
    (qs : List (String × JudgeOutcome)) :
    (pyStrip modelPatch = "" → runCodeUnderstanding modelPatch qs = 0) ∧
    (qs = [] → runCodeUnderstanding modelPatch qs = 0) ∧
    (pyStrip modelPatch ≠ "" → qs ≠ [] →
      runCodeUnderstanding modelPatch qs =
        ((qs.map fun q => (judgeQuestion q.1 q.2).2.1).sum) /
          ((qs.length : ℚ))) ∧
    (∀ qid msg, (judgeQuestion qid (.transportError msg)).2.1 = 0 ∧
      ∃ pre post,
        (judgeQuestion qid (.transportError msg)).2.2 = pre ++ msg ++ post) ∧
    (∀ qid, (judgeQuestion qid .noJson).2.1 = 0 ∧
      (judgeQuestion qid .noJson).2.2 = "Error: No valid JSON found") := by
  refine ⟨?_, ?_, ?_, ?_, ?_⟩
  · intro h
    simp [runCodeUnderstanding, h]
  · intro h
    subst h
    by_cases hb : pyStrip modelPatch = "" <;>
      simp [runCodeUnderstanding, hb]
  · intro h1 h2
    unfold runCodeUnderstanding
    rw [if_neg h1, if_neg (by simpa [List.isEmpty_iff] using h2)]
    simp only [List.map_map, List.length_map, List.isEmpty_eq_true]
    rw [if_neg (by simpa [List.map_eq_nil_iff] using h2)]
    rfl
  · intro qid msg
    exact ⟨rfl, ⟨"Error: API error: [ERROR] ", "\nRESULT: FAIL", rfl⟩⟩
  · intro qid
    exact ⟨rfl, rfl⟩

/-- C9 witness: one transport-failed question (score 0) and one judged
question with score 1 average to 1/2. -/
theorem c9_judge_degradation_witness :
    runCodeUnderstanding "answer"
        [("q1", JudgeOutcome.transportError "boom"),
         ("q2", JudgeOutcome.parsed 1 "ok")] = 1 / 2 := by
  have h := (c9_judge_degradation "answer"
    [("q1", JudgeOutcome.transportError "boom"),
     ("q2", JudgeOutcome.parsed 1 "ok")]).2.2.1 (by decide) (by decide)
  rw [h]
  norm_num [judgeQuestion]
